import Mathlib

/-!
# SlimeVR tracker: `Connection` packet framing (src/network/connection.h)

A shallow embedding of the parts of `SlimeVR::Network::Connection` that are
defined in `connection.h`: the member initialisers and the constructor, and the
two generic framing templates `sendPacket` / `sendPacketCallback` built from the
`MUST_TRANSFER_BOOL` early-return chain.

The private helpers the templates call (`beginPacket`, `endPacket`,
`sendPacketType`, `sendPacketNumber`, `sendLong`, `sendBytes`) are only declared
in the header.  The templates are therefore embedded over an arbitrary
implementation of those helpers (`Prims`), each helper being a state
transformer that reports success or failure.

The program state is a pair `Connection × ε`: the data members of the object,
and an environment `ε` holding everything outside it that the helpers act on
(the `WiFiUDP` socket `m_UDP` and the network behind it, the logger).
-/

namespace SlimeVR.Network

/-! ## Wire-level vocabulary -/

/-- The `SendPacketType` tag, by its underlying `uint8_t` value. -/
abbrev SendPacketType := Nat

/-- The object representation of a `Packet` value: the bytes that
`reinterpret_cast<uint8_t*>(&packet)` points at. -/
abbrev Packet := List Nat

/-- The `sizeof(Packet)` of a packet given by its object representation. -/
def sizeofPacket (packet : Packet) : Nat := packet.length

/-- One call of a framing helper, with the arguments it was given. -/
inductive Op where
  | beginPacket
  | sendPacketType (type : SendPacketType)
  | sendPacketNumber
  | sendLong (l : Nat)
  | sendBytes (c : List Nat) (length : Nat)
  | bodyCallback
  | endPacket
  deriving DecidableEq, Repr

/-- The call log: every helper call in program order, with the `bool` it
returned. -/
abbrev Log := List (Op × Bool)

/-- The private helpers of `Connection` that the framing templates call
(connection.h:144-157), over a state type `σ`.  Each returns the `bool` of the
C++ member function together with the state it leaves. -/
structure Prims (σ : Type) where
  beginPacket : σ → Bool × σ
  endPacket : σ → Bool × σ
  sendPacketType : SendPacketType → σ → Bool × σ
  sendPacketNumber : σ → Bool × σ
  sendLong : Nat → σ → Bool × σ
  sendBytes : List Nat → Nat → σ → Bool × σ

/-! ## The framing templates (connection.h:161-199) -/

/-- The template `Connection::sendPacket` (connection.h:161-180).  Every
`MUST_TRANSFER_BOOL(b)` is `if (!(b)) return false;`. -/
def sendPacket {σ : Type} (P : Prims σ) (type : SendPacketType) (packet : Packet)
    (packetNumberOverride : Option Nat) (s : σ) : Bool × σ :=
  let r1 := P.beginPacket s
  if !r1.1 then (false, r1.2) else
  let r2 := P.sendPacketType type r1.2
  if !r2.1 then (false, r2.2) else
  let r3 := match packetNumberOverride with
    | some l => P.sendLong l r2.2
    | none => P.sendPacketNumber r2.2
  if !r3.1 then (false, r3.2) else
  let r4 := P.sendBytes packet (sizeofPacket packet) r3.2
  if !r4.1 then (false, r4.2) else
  P.endPacket r4.2

/-- The template `Connection::sendPacketCallback` (connection.h:182-199). -/
def sendPacketCallback {σ : Type} (P : Prims σ) (type : SendPacketType)
    (bodyCallback : σ → Bool × σ) (packetNumberOverride : Option Nat) (s : σ) :
    Bool × σ :=
  let r1 := P.beginPacket s
  if !r1.1 then (false, r1.2) else
  let r2 := P.sendPacketType type r1.2
  if !r2.1 then (false, r2.2) else
  let r3 := match packetNumberOverride with
    | some l => P.sendLong l r2.2
    | none => P.sendPacketNumber r2.2
  if !r3.1 then (false, r3.2) else
  let r4 := bodyCallback r3.2
  if !r4.1 then (false, r4.2) else
  P.endPacket r4.2

/-! ## Naming the sequence step -/

/-- The sequence step of both templates as an `Op`: `sendLong(*override)` when
an override is given, `sendPacketNumber()` otherwise. -/
def seqOp : Option Nat → Op
  | some l => Op.sendLong l
  | none => Op.sendPacketNumber

/-- The sequence step of both templates as a state transformer. -/
def seqStep {σ : Type} (P : Prims σ) : Option Nat → σ → Bool × σ
  | some l => P.sendLong l
  | none => P.sendPacketNumber

/-! ## The object: data members and constructor (connection.h:51-59, 216-242) -/

/-- An Arduino `IPAddress`, by its four octets. -/
structure IPAddress where
  a : Nat
  b : Nat
  c : Nat
  d : Nat
  deriving DecidableEq, Repr

/-- The number of values of the 32-bit `int` of the target. -/
def INT_MOD : Int := 2 ^ 32

/-- The smallest value of the 32-bit `int` of the target. -/
def INT_MIN : Int := -(2 ^ 31)

/-- The largest value of the 32-bit `int` of the target. -/
def INT_MAX : Int := 2 ^ 31 - 1

/-- Conversion of an integer value to `int`: the value itself when it is
representable, and otherwise the representable value congruent to it modulo
`2 ^ 32`. -/
def toInt (v : Int) : Int := (v - INT_MIN) % INT_MOD + INT_MIN

/-- The data members of `Connection` (connection.h:216-242).  `m_UDP` and
`m_Logger` are handles on external collaborators; their state is part of the
environment.  Integers are kept as their mathematical values, every store that
can leave the range of the member being reduced to it explicitly:
`m_PacketNumber` is a `uint64_t`, the bundle fields are `uint16_t`,
`m_ServerPort` is a 32-bit `int`.
`SensorStatus` and `SensorConfigBits` values are kept as their underlying bit
patterns, `ServerFeatures` as its flag set. -/
structure Connection where
  m_Connected : Bool
  m_Packet : List Nat
  m_PacketNumber : Nat
  m_ServerPort : Int
  m_ServerHost : IPAddress
  m_LastConnectionAttemptTimestamp : Nat
  m_LastPacketTimestamp : Nat
  m_AckedSensorState : List Nat
  m_AckedSensorConfigData : List Nat
  m_AckedSensorCalibration : List Bool
  m_LastSensorInfoPacketTimestamp : Nat
  m_FeatureFlagsRequestAttempts : Nat
  m_FeatureFlagsRequestTimestamp : Nat
  m_ServerFeatures : Nat
  m_IsBundle : Bool
  m_BundlePacketPosition : Nat
  m_BundlePacketInnerCount : Nat
  m_Buf : List Nat
  deriving DecidableEq, Repr

/-- The compile-time configuration the header depends on: the optional
`SERVER_IP` / `SERVER_PORT` macros, `MAX_SENSORS_COUNT` (globals.h) and the
underlying value of the enumerator `SensorStatus::SENSOR_OFFLINE`
(sensors/sensor.h).  The last two are declared outside the header and are
taken as parameters.  `SERVER_PORT` is the value of the macro's integer
literal, of whatever integer type that literal has. -/
structure BuildConfig where
  SERVER_IP : Option String
  SERVER_PORT : Option Int
  MAX_SENSORS_COUNT : Nat
  SENSOR_OFFLINE : Nat

/-- What construction reads from outside the object: the clock (`millis()`),
`IPAddress::fromString` (applied to the current address, which it may
overwrite), and the indeterminate contents of the members that have no
initialiser (`m_Packet`, `m_Buf`, the two connection timestamps). -/
structure Ambient where
  millis : Nat
  fromString : String → IPAddress → IPAddress
  packet : List Nat
  buf : List Nat
  lastConnectionAttemptTimestamp : Nat
  lastPacketTimestamp : Nat

/-- C++ aggregate initialisation of `T a[n] = {given...}`: the listed elements
come first, every remaining element is value-initialised (`zero`). -/
def aggregateInit {α : Type} (n : Nat) (given : List α) (zero : α) : List α :=
  (List.range n).map (fun i => given.getD i zero)

/-- The default member initialisers (connection.h:216-242). -/
def Connection.memberInit (cfg : BuildConfig) (amb : Ambient) : Connection where
  m_Connected := false
  m_Packet := amb.packet
  m_PacketNumber := 0
  m_ServerPort := 6969
  m_ServerHost := ⟨255, 255, 255, 255⟩
  m_LastConnectionAttemptTimestamp := amb.lastConnectionAttemptTimestamp
  m_LastPacketTimestamp := amb.lastPacketTimestamp
  m_AckedSensorState := aggregateInit cfg.MAX_SENSORS_COUNT [cfg.SENSOR_OFFLINE] 0
  m_AckedSensorConfigData := aggregateInit cfg.MAX_SENSORS_COUNT [] 0
  m_AckedSensorCalibration := aggregateInit cfg.MAX_SENSORS_COUNT [false] false
  m_LastSensorInfoPacketTimestamp := 0
  m_FeatureFlagsRequestAttempts := 0
  m_FeatureFlagsRequestTimestamp := amb.millis
  m_ServerFeatures := 0
  m_IsBundle := false
  m_BundlePacketPosition := 0
  m_BundlePacketInnerCount := 0
  m_Buf := amb.buf

/-- The constructor `Connection::Connection()` (connection.h:51-59): the member
initialisers, then the two `#ifdef` overrides.  The assignment
`m_ServerPort = SERVER_PORT` converts the macro's value to `int`. -/
def Connection.construct (cfg : BuildConfig) (amb : Ambient) : Connection :=
  let s0 := Connection.memberInit cfg amb
  let s1 := match cfg.SERVER_IP with
    | some ip => { s0 with m_ServerHost := amb.fromString ip s0.m_ServerHost }
    | none => s0
  match cfg.SERVER_PORT with
  | some port => { s1 with m_ServerPort := toInt port }
  | none => s1

/-- The accessor `Connection::isConnected` (connection.h:64). -/
def Connection.isConnected (s : Connection) : Bool := s.m_Connected

/-! ## Helpers whose bodies are not in the header -/

/-- The width of `uint64_t`: the modulus of `m_PacketNumber`. -/
def UINT64_MOD : Nat := 2 ^ 64

/-- The program state: the object and the environment the helpers act on. -/
abbrev State (ε : Type) := Connection × ε

/-- Modelled from the spec: the body of `Connection::sendPacketNumber`, which
connection.h:151 only declares.  Spec 2: "assigns a monotonically increasing
packet sequence number to every outgoing packet"; spec 4.1: "write sequence
number"; spec 8: "the sequence number strictly increases by exactly one per
non-bundled, non-overridden send" and "the session's sequence counter is not
advanced for the failed packet"; spec 4.2: a packet sent while bundling is
active does not draw "a fresh sequence number", the sequence number being
"carried once at the outer level" (spec 6).  Outside a bundle the helper writes
the current value of the `uint64_t` counter `m_PacketNumber` with `sendLong`;
when that write fails it reports the failure and does not advance the counter,
when it succeeds it advances the counter by one.  While a bundle is active it
draws nothing and succeeds.  The helper has returned before the payload is
written, so what happens to the counter when a later step of the packet fails
is not its to decide. -/
def sendPacketNumber {ε : Type} (sendLong : Nat → State ε → Bool × State ε)
    (x : State ε) : Bool × State ε :=
  if x.1.m_IsBundle then (true, x)
  else
    let pn := x.1.m_PacketNumber
    let r := sendLong pn x
    if !r.1 then (false, r.2) else
    (true, ({ r.2.1 with m_PacketNumber := (pn + 1) % UINT64_MOD }, r.2.2))

/-- The helpers `P` with `sendPacketNumber` given by the model above, on top of
the `sendLong` of `P`. -/
def withPacketNumber {ε : Type} (P : Prims (State ε)) : Prims (State ε) :=
  { P with sendPacketNumber := sendPacketNumber P.sendLong }

/-- The width in bytes of the inner-count field of a bundle envelope
(`inner_count: u16`, spec 3). -/
def INNER_COUNT_SIZE : Nat := 2

/-- Modelled from the spec: the body of `Connection::beginBundle`, which
connection.h:136 only declares.  Spec 4.2: "`begin_bundle()` fails if a bundle
is already active; otherwise marks the session as bundling and reserves header
space for an inner count."  Reserving is modelled on the bundle cursor, which
starts past the inner-count field, with no sub-frame counted yet. -/
def beginBundle {ε : Type} (x : State ε) : Bool × State ε :=
  if x.1.m_IsBundle then (false, x)
  else
    (true, ({ x.1 with
      m_IsBundle := true
      m_BundlePacketPosition := INNER_COUNT_SIZE
      m_BundlePacketInnerCount := 0 }, x.2))

/-- Modelled from the spec: the body of `Connection::endBundle`, which
connection.h:137 only declares.  Spec 4.2: "`end_bundle()` back-patches the
reserved inner-count field with the number of sub-frames written and flushes
the envelope; calling it while no bundle is active is a no-op failure."  The
back-patch of the outgoing buffer is the parameter `patchInnerCount` (the
header declares no helper for it), the flush is `endPacket` (spec 4.1:
"`end_packet()` flushes and releases it"); the bundle is closed before the
envelope is written out, and a failed back-patch aborts the flush. -/
def endBundle {ε : Type} (patchInnerCount : Nat → State ε → Bool × State ε)
    (P : Prims (State ε)) (x : State ε) : Bool × State ε :=
  if !x.1.m_IsBundle then (false, x)
  else
    let y : State ε := ({ x.1 with m_IsBundle := false }, x.2)
    let r := patchInnerCount x.1.m_BundlePacketInnerCount y
    if !r.1 then (false, r.2) else
    P.endPacket r.2

/-! ## Assumptions on the absent helpers, and test doubles -/

/-- The state transformer `f` keeps the invariant `Inv` and, on states
satisfying it, leaves `m_PacketNumber` as it was. -/
def Keeps {ε : Type} (Inv : State ε → Prop) (f : State ε → Bool × State ε) : Prop :=
  ∀ x, Inv x → Inv (f x).2 ∧ (f x).2.1.m_PacketNumber = x.1.m_PacketNumber

/-- Every helper other than `sendPacketNumber` keeps `Inv` and leaves the
sequence counter alone on states satisfying `Inv`. -/
def Frames {ε : Type} (Inv : State ε → Prop) (P : Prims (State ε)) : Prop :=
  Keeps Inv P.beginPacket ∧ (∀ type, Keeps Inv (P.sendPacketType type)) ∧
  (∀ l, Keeps Inv (P.sendLong l)) ∧ (∀ c length, Keeps Inv (P.sendBytes c length)) ∧
  Keeps Inv P.endPacket

/-- No bundle is active. -/
def outsideBundle {ε : Type} (x : State ε) : Prop := x.1.m_IsBundle = false

/-- Runs the helper `f` on a state whose environment also carries the call log,
and appends the call and the `bool` it returned to the log.  The templates are
generic in the state, so the calls they make are observed by running them on
helpers instrumented this way. -/
def logged {ε : Type} (op : Op) (f : State ε → Bool × State ε)
    (x : State (ε × Log)) : Bool × State (ε × Log) :=
  let r := f (x.1, x.2.1)
  (r.1, (r.2.1, (r.2.2, x.2.2 ++ [(op, r.1)])))

/-- The helpers `P`, each recording its call in the log kept in the
environment. -/
def traced {ε : Type} (P : Prims (State ε)) : Prims (State (ε × Log)) where
  beginPacket := logged Op.beginPacket P.beginPacket
  endPacket := logged Op.endPacket P.endPacket
  sendPacketType := fun type => logged (Op.sendPacketType type) (P.sendPacketType type)
  sendPacketNumber := logged Op.sendPacketNumber P.sendPacketNumber
  sendLong := fun l => logged (Op.sendLong l) (P.sendLong l)
  sendBytes := fun c length => logged (Op.sendBytes c length) (P.sendBytes c length)

/-- A state of the program together with a call log. -/
def withLog {ε : Type} (x : State ε) (log : Log) : State (ε × Log) := (x.1, (x.2, log))

/-- The outcome of `beginPacket`, the first step of a send. -/
def afterBegin {ε : Type} (P : Prims (State ε)) (x : State ε) : Bool × State ε :=
  P.beginPacket x

/-- The outcome of `sendPacketType`, run after `beginPacket`. -/
def afterType {ε : Type} (P : Prims (State ε)) (type : SendPacketType) (x : State ε) :
    Bool × State ε :=
  P.sendPacketType type (afterBegin P x).2

/-- The outcome of the sequence step, run after `sendPacketType`. -/
def afterSeq {ε : Type} (P : Prims (State ε)) (type : SendPacketType) (ov : Option Nat)
    (x : State ε) : Bool × State ε :=
  seqStep P ov (afterType P type x).2

/-- The outcome of the payload write `body`, run after the sequence step. -/
def afterBody {ε : Type} (P : Prims (State ε)) (type : SendPacketType) (ov : Option Nat)
    (body : State ε → Bool × State ε) (x : State ε) : Bool × State ε :=
  body (afterSeq P type ov x).2

/-- The outcome of `endPacket`, run after the payload write `body`. -/
def afterEnd {ε : Type} (P : Prims (State ε)) (type : SendPacketType) (ov : Option Nat)
    (body : State ε → Bool × State ε) (x : State ε) : Bool × State ε :=
  P.endPacket (afterBody P type ov body x).2

/-- The calls of the log that write the sequence field: `sendLong` and
`sendPacketNumber`. -/
def isSeqCall : Op → Bool
  | Op.sendLong _ => true
  | Op.sendPacketNumber => true
  | _ => false

/-- The sequence-field calls among the calls a run has logged. -/
def seqCalls {ε : Type} (out : Bool × State (ε × Log)) : List Op :=
  (out.2.2.2.map Prod.fst).filter isSeqCall

/-- The sequence step is reached: `beginPacket` and `sendPacketType` succeeded. -/
def reachedSeq {ε : Type} (P : Prims (State ε)) (type : SendPacketType) (x : State ε) :
    Bool :=
  (afterBegin P x).1 && (afterType P type x).1

/-- One logical send: the arguments of one `sendPacket` call. -/
structure Send where
  type : SendPacketType
  packet : Packet
  packetNumberOverride : Option Nat
  deriving DecidableEq, Repr

/-- Test driver: performs the sends in order and stops at the first one that
fails; the result is `true` when every send succeeded. -/
def sendAll {σ : Type} (P : Prims σ) : List Send → σ → Bool × σ
  | [], s => (true, s)
  | m :: ms, s =>
    let r := sendPacket P m.type m.packet m.packetNumberOverride s
    if !r.1 then (false, r.2) else sendAll P ms r.2

/-- The successor of a sequence number in `uint64_t` arithmetic. -/
def nextPacketNumber (c : Nat) : Nat := (c + 1) % UINT64_MOD

/-- The calls expected of a run of successful sends outside a bundle that
starts with the sequence counter at `c`, the counter moving from one fresh
number to the next by `next`: each send is begin, type tag, sequence number,
payload, end; a send without an override writes the counter and moves it on, a
send with an override writes the override and leaves the counter. -/
def expectedCalls (next : Nat → Nat) : Nat → List Send → List Op
  | _, [] => []
  | c, m :: ms =>
    [Op.beginPacket, Op.sendPacketType m.type, Op.sendLong (m.packetNumberOverride.getD c),
      Op.sendBytes m.packet (sizeofPacket m.packet), Op.endPacket]
    ++ expectedCalls next (if m.packetNumberOverride.isNone then next c else c) ms

/-- The sequence counter expected after a run of successful sends outside a
bundle that starts with the counter at `c`. -/
def counterAfter (next : Nat → Nat) : Nat → List Send → Nat
  | c, [] => c
  | c, m :: ms => counterAfter next (if m.packetNumberOverride.isNone then next c else c) ms

/-- The number of sends in the list that draw a fresh sequence number. -/
def freshCount (sends : List Send) : Nat :=
  (sends.filter (fun m => m.packetNumberOverride.isNone)).length

/-- Test double for the transport: the environment is a script of outcomes;
each helper call consumes the next outcome and reports it, and succeeds once
the script is exhausted. -/
def scriptedStep (x : State (List Bool)) : Bool × State (List Bool) :=
  match x.2 with
  | [] => (true, x)
  | b :: rest => (b, (x.1, rest))

/-- The helpers over the scripted transport. -/
def scripted : Prims (State (List Bool)) where
  beginPacket := scriptedStep
  endPacket := scriptedStep
  sendPacketType := fun _ => scriptedStep
  sendPacketNumber := scriptedStep
  sendLong := fun _ => scriptedStep
  sendBytes := fun _ _ => scriptedStep

/-- A build with neither `SERVER_IP` nor `SERVER_PORT`, four sensor slots and
`SENSOR_OFFLINE` the zero enumerator. -/
def defaultBuild : BuildConfig where
  SERVER_IP := none
  SERVER_PORT := none
  MAX_SENSORS_COUNT := 4
  SENSOR_OFFLINE := 0

/-- A build that defines `SERVER_PORT` as 9000. -/
def portBuild : BuildConfig := { defaultBuild with SERVER_PORT := some 9000 }

/-- A build that defines `SERVER_PORT` as 4294974265, which is `2 ^ 32 + 6969`
and does not fit an `int`. -/
def widePortBuild : BuildConfig := { defaultBuild with SERVER_PORT := some 4294974265 }

/-- Sample surroundings of a construction. -/
def sampleAmbient : Ambient where
  millis := 1234
  fromString := fun _ ip => ip
  packet := []
  buf := []
  lastConnectionAttemptTimestamp := 7
  lastPacketTimestamp := 9

/-- A freshly constructed object in the default build. -/
def fresh : Connection := Connection.construct defaultBuild sampleAmbient

/-- Three sends: a fresh draw, a send with override 0, another fresh draw. -/
def sampleSends : List Send :=
  [⟨4, [1], none⟩, ⟨3, [2], some 0⟩, ⟨4, [3], none⟩]

/-! ## The framing templates: control flow -/

/-- C1. Fail-fast packet assembly.  For every implementation of the helpers,
packet type, payload (or body callback), optional sequence override and state:
when `beginPacket`, `sendPacketType`, the sequence step or the payload write is
the first step to report failure, `sendPacket` and `sendPacketCallback` return
`false`, the state is the one that failing step left, and the calls made are
exactly the steps up to and including the failing one, so `endPacket` is not
called. -/
theorem sendPacket_fail_fast {ε : Type} (P : Prims (State ε)) (type : SendPacketType)
    (packet : Packet) (bodyCallback : State ε → Bool × State ε) (ov : Option Nat)
    (x : State ε) :
    ((afterBegin P x).1 = false →
      sendPacket (traced P) type packet ov (withLog x [])
        = (false, withLog (afterBegin P x).2 [(Op.beginPacket, false)])
      ∧ sendPacketCallback (traced P) type (logged Op.bodyCallback bodyCallback) ov
          (withLog x [])
        = (false, withLog (afterBegin P x).2 [(Op.beginPacket, false)]))
    ∧ ((afterBegin P x).1 = true → (afterType P type x).1 = false →
      sendPacket (traced P) type packet ov (withLog x [])
        = (false, withLog (afterType P type x).2
            [(Op.beginPacket, true), (Op.sendPacketType type, false)])
      ∧ sendPacketCallback (traced P) type (logged Op.bodyCallback bodyCallback) ov
          (withLog x [])
        = (false, withLog (afterType P type x).2
            [(Op.beginPacket, true), (Op.sendPacketType type, false)]))
    ∧ ((afterBegin P x).1 = true → (afterType P type x).1 = true →
        (afterSeq P type ov x).1 = false →
      sendPacket (traced P) type packet ov (withLog x [])
        = (false, withLog (afterSeq P type ov x).2
            [(Op.beginPacket, true), (Op.sendPacketType type, true), (seqOp ov, false)])
      ∧ sendPacketCallback (traced P) type (logged Op.bodyCallback bodyCallback) ov
          (withLog x [])
        = (false, withLog (afterSeq P type ov x).2
            [(Op.beginPacket, true), (Op.sendPacketType type, true), (seqOp ov, false)]))
    ∧ ((afterBegin P x).1 = true → (afterType P type x).1 = true →
        (afterSeq P type ov x).1 = true →
        (afterBody P type ov (P.sendBytes packet (sizeofPacket packet)) x).1 = false →
      sendPacket (traced P) type packet ov (withLog x [])
        = (false, withLog (afterBody P type ov (P.sendBytes packet (sizeofPacket packet)) x).2
            [(Op.beginPacket, true), (Op.sendPacketType type, true), (seqOp ov, true),
              (Op.sendBytes packet (sizeofPacket packet), false)]))
    ∧ ((afterBegin P x).1 = true → (afterType P type x).1 = true →
        (afterSeq P type ov x).1 = true →
        (afterBody P type ov bodyCallback x).1 = false →
      sendPacketCallback (traced P) type (logged Op.bodyCallback bodyCallback) ov
          (withLog x [])
        = (false, withLog (afterBody P type ov bodyCallback x).2
            [(Op.beginPacket, true), (Op.sendPacketType type, true), (seqOp ov, true),
              (Op.bodyCallback, false)])) := by
  cases ov <;>
    simp only [afterBegin, afterType, afterSeq, afterBody, seqStep, seqOp, sendPacket,
      sendPacketCallback, traced, logged, withLog, List.nil_append, List.cons_append] <;>
    refine ⟨?_, ?_, ?_, ?_, ?_⟩ <;> intros <;> simp_all

/-- Witness for C1: over the scripted transport whose fourth call (the payload
write) fails, the send returns `false` after exactly four calls. -/
theorem sendPacket_fail_fast_witness :
    sendPacket (traced scripted) 4 [1, 2] none (withLog (fresh, [true, true, true, false]) [])
      = (false, withLog (afterBody scripted 4 none (scripted.sendBytes [1, 2]
            (sizeofPacket [1, 2])) (fresh, [true, true, true, false])).2
          [(Op.beginPacket, true), (Op.sendPacketType 4, true), (Op.sendPacketNumber, true),
            (Op.sendBytes [1, 2] 2, false)]) :=
  (sendPacket_fail_fast scripted 4 [1, 2] scriptedStep none
    (fresh, [true, true, true, false])).2.2.2.1 rfl rfl rfl rfl

/-- C2. Order of a successful send.  For every implementation of the helpers,
packet type, payload, optional override and state: when `beginPacket`,
`sendPacketType`, the sequence step and the payload write succeed, `sendPacket`
calls exactly `beginPacket`, `sendPacketType(type)`, the sequence step,
`sendBytes(payload, sizeof(Packet))`, `endPacket`, once each and in that order,
and returns what `endPacket` returned; and `sendPacket` returns `true` exactly
when all five steps succeed. -/
theorem sendPacket_success_order {ε : Type} (P : Prims (State ε)) (type : SendPacketType)
    (packet : Packet) (ov : Option Nat) (x : State ε) :
    ((afterBegin P x).1 = true → (afterType P type x).1 = true →
        (afterSeq P type ov x).1 = true →
        (afterBody P type ov (P.sendBytes packet (sizeofPacket packet)) x).1 = true →
      sendPacket (traced P) type packet ov (withLog x [])
        = ((afterEnd P type ov (P.sendBytes packet (sizeofPacket packet)) x).1,
            withLog (afterEnd P type ov (P.sendBytes packet (sizeofPacket packet)) x).2
              [(Op.beginPacket, true), (Op.sendPacketType type, true), (seqOp ov, true),
                (Op.sendBytes packet (sizeofPacket packet), true),
                (Op.endPacket,
                  (afterEnd P type ov (P.sendBytes packet (sizeofPacket packet)) x).1)])
      ∧ sendPacket P type packet ov x
        = afterEnd P type ov (P.sendBytes packet (sizeofPacket packet)) x)
    ∧ ((sendPacket P type packet ov x).1 = true ↔
        ((afterBegin P x).1 = true ∧ (afterType P type x).1 = true ∧
          (afterSeq P type ov x).1 = true ∧
          (afterBody P type ov (P.sendBytes packet (sizeofPacket packet)) x).1 = true ∧
          (afterEnd P type ov (P.sendBytes packet (sizeofPacket packet)) x).1 = true)) := by
  cases ov <;>
    simp only [afterBegin, afterType, afterSeq, afterBody, afterEnd, seqStep, seqOp,
      sendPacket, traced, logged, withLog, List.nil_append, List.cons_append] <;>
    refine ⟨?_, ?_⟩
  · intros; simp_all
  · cases h1 : (P.beginPacket x).1 <;> simp [h1]
    cases h2 : (P.sendPacketType type (P.beginPacket x).2).1 <;> simp [h2]
    cases h3 : (P.sendPacketNumber (P.sendPacketType type (P.beginPacket x).2).2).1 <;>
      simp [h3]
    cases h4 : (P.sendBytes packet (sizeofPacket packet)
      (P.sendPacketNumber (P.sendPacketType type (P.beginPacket x).2).2).2).1 <;> simp [h4]
  · intros; simp_all
  · cases h1 : (P.beginPacket x).1 <;> simp [h1]
    cases h2 : (P.sendPacketType type (P.beginPacket x).2).1 <;> simp [h2]
    rename_i l
    cases h3 : (P.sendLong l (P.sendPacketType type (P.beginPacket x).2).2).1 <;>
      simp [h3]
    cases h4 : (P.sendBytes packet (sizeofPacket packet)
      (P.sendLong l (P.sendPacketType type (P.beginPacket x).2).2).2).1 <;> simp [h4]

/-- Witness for C2: over the transport that never fails, a send with override
7 makes the five calls in order and returns `true`. -/
theorem sendPacket_success_order_witness :
    sendPacket (traced scripted) 17 [9, 8, 7] (some 7) (withLog (fresh, []) [])
      = (true, withLog (fresh, [])
          [(Op.beginPacket, true), (Op.sendPacketType 17, true), (Op.sendLong 7, true),
            (Op.sendBytes [9, 8, 7] 3, true), (Op.endPacket, true)]) :=
  ((sendPacket_success_order scripted 17 [9, 8, 7] (some 7) (fresh, [])).1
    rfl rfl rfl rfl).1

/-- C9. The two generic framing forms agree.  For every implementation of the
helpers, packet type, payload, optional override and state, `sendPacket` is
`sendPacketCallback` with the body callback that does `sendBytes` on the
payload with length `sizeof(Packet)`: same result and same final state; and
with the helpers instrumented, the same call log. -/
theorem sendPacket_eq_sendPacketCallback {ε : Type} (P : Prims (State ε))
    (type : SendPacketType) (packet : Packet) (ov : Option Nat) (x : State ε) (log : Log) :
    sendPacket P type packet ov x
        = sendPacketCallback P type (P.sendBytes packet (sizeofPacket packet)) ov x
    ∧ sendPacket (traced P) type packet ov (withLog x log)
        = sendPacketCallback (traced P) type
            ((traced P).sendBytes packet (sizeofPacket packet)) ov (withLog x log) :=
  ⟨rfl, rfl⟩

/-! ## The sequence counter -/

/-- Instrumenting the helpers does not change what `sendPacket` does to the
program state, nor its result. -/
theorem sendPacket_traced {ε : Type} (P : Prims (State ε)) (type : SendPacketType)
    (packet : Packet) (ov : Option Nat) (x : State ε) (log : Log) :
    (sendPacket (traced P) type packet ov (withLog x log)).1
        = (sendPacket P type packet ov x).1
    ∧ (sendPacket (traced P) type packet ov (withLog x log)).2.1
        = (sendPacket P type packet ov x).2.1 := by
  cases ov <;>
    simp only [sendPacket, traced, logged, withLog] <;>
    split_ifs <;> simp_all

/-- Instrumenting the helpers and the callback does not change what
`sendPacketCallback` does to the program state, nor its result. -/
theorem sendPacketCallback_traced {ε : Type} (P : Prims (State ε)) (type : SendPacketType)
    (cb : State ε → Bool × State ε) (ov : Option Nat) (x : State ε) (log : Log) :
    (sendPacketCallback (traced P) type (logged Op.bodyCallback cb) ov (withLog x log)).1
        = (sendPacketCallback P type cb ov x).1
    ∧ (sendPacketCallback (traced P) type (logged Op.bodyCallback cb) ov
          (withLog x log)).2.1
        = (sendPacketCallback P type cb ov x).2.1 := by
  cases ov <;>
    simp only [sendPacketCallback, traced, logged, withLog] <;>
    split_ifs <;> simp_all

/-- A send with an override only runs helpers that leave the counter alone. -/
theorem sendPacketCallback_override_counter {ε : Type} (Inv : State ε → Prop)
    (P : Prims (State ε)) (hP : Frames Inv P) (cb : State ε → Bool × State ε)
    (hcb : Keeps Inv cb) (type : SendPacketType) (n : Nat) (x : State ε) (hx : Inv x) :
    Inv (sendPacketCallback P type cb (some n) x).2
    ∧ (sendPacketCallback P type cb (some n) x).2.1.m_PacketNumber = x.1.m_PacketNumber := by
  obtain ⟨hb, ht, hl, _, he⟩ := hP
  have h1 := hb x hx
  have h2 := ht type _ h1.1
  have h3 := hl n _ h2.1
  have h4 := hcb _ h3.1
  have h5 := he _ h4.1
  simp only [sendPacketCallback]
  split_ifs
  · exact ⟨h1.1, h1.2⟩
  · exact ⟨h2.1, h2.2.trans h1.2⟩
  · exact ⟨h3.1, h3.2.trans (h2.2.trans h1.2)⟩
  · exact ⟨h4.1, h4.2.trans (h3.2.trans (h2.2.trans h1.2))⟩
  · exact ⟨h5.1, h5.2.trans (h4.2.trans (h3.2.trans (h2.2.trans h1.2)))⟩

/-- The scripted transport never touches the object. -/
theorem scriptedStep_fst (x : State (List Bool)) : (scriptedStep x).2.1 = x.1 := by
  unfold scriptedStep
  split <;> rfl

/-- The scripted helpers leave the sequence counter and the bundle flag alone. -/
theorem scripted_frames (Inv : State (List Bool) → Prop)
    (hInv : ∀ x, Inv x → Inv (scriptedStep x).2) : Frames Inv scripted := by
  have h : Keeps Inv scriptedStep := fun x hx => ⟨hInv x hx, by rw [scriptedStep_fst]⟩
  exact ⟨h, fun _ => h, fun _ => h, fun _ _ => h, h⟩

/-- C3. Sequence override.  For every implementation of the helpers and every
state: in `sendPacket` and `sendPacketCallback` the only sequence-field call is
the sequence step, made once the header steps have succeeded; it is
`sendLong(n)` when an override `n` is supplied (`sendPacketNumber` is not
called) and `sendPacketNumber()` when none is supplied (`sendLong` is not
called by the framing).  With an override, and helpers other than
`sendPacketNumber` (and a body callback) that leave `m_PacketNumber` alone, the
counter after the send is the counter before it. -/
theorem sendPacket_sequence_override {ε : Type} (Inv : State ε → Prop)
    (P : Prims (State ε)) (hP : Frames Inv P) (cb : State ε → Bool × State ε)
    (hcb : Keeps Inv cb) (type : SendPacketType) (packet : Packet) (ov : Option Nat)
    (x : State ε) (hx : Inv x) :
    seqCalls (sendPacket (traced P) type packet ov (withLog x []))
        = (if reachedSeq P type x then [seqOp ov] else [])
    ∧ seqCalls (sendPacketCallback (traced P) type (logged Op.bodyCallback cb) ov
          (withLog x []))
        = (if reachedSeq P type x then [seqOp ov] else [])
    ∧ (∀ n, ov = some n →
        (sendPacket (traced P) type packet ov (withLog x [])).2.1.m_PacketNumber
            = x.1.m_PacketNumber
        ∧ (sendPacketCallback (traced P) type (logged Op.bodyCallback cb) ov
              (withLog x [])).2.1.m_PacketNumber
            = x.1.m_PacketNumber) := by
  refine ⟨?_, ?_, ?_⟩
  · cases ov <;>
      simp only [seqCalls, reachedSeq, afterBegin, afterType, seqOp, sendPacket, traced,
        logged, withLog, List.nil_append, List.cons_append] <;>
      split_ifs <;> simp_all [isSeqCall]
  · cases ov <;>
      simp only [seqCalls, reachedSeq, afterBegin, afterType, seqOp, sendPacketCallback,
        traced, logged, withLog, List.nil_append, List.cons_append] <;>
      split_ifs <;> simp_all [isSeqCall]
  · rintro n rfl
    rw [(sendPacket_traced P type packet (some n) x []).2,
      (sendPacketCallback_traced P type cb (some n) x []).2]
    have hbytes : Keeps Inv (P.sendBytes packet (sizeofPacket packet)) := hP.2.2.2.1 _ _
    exact ⟨(sendPacketCallback_override_counter Inv P hP _ hbytes type n x hx).2,
      (sendPacketCallback_override_counter Inv P hP cb hcb type n x hx).2⟩

/-- Witness for C3: over the scripted transport, a send with override 5 calls
`sendLong 5` once and leaves the counter of the fresh object at its value. -/
theorem sendPacket_sequence_override_witness :
    Frames (fun _ => True) scripted ∧ Keeps (fun _ => True) scriptedStep
    ∧ seqCalls (sendPacket (traced scripted) 3 [1] (some 5) (withLog (fresh, []) []))
        = (if reachedSeq scripted 3 (fresh, []) then [seqOp (some 5)] else [])
    ∧ seqCalls (sendPacketCallback (traced scripted) 3 (logged Op.bodyCallback scriptedStep)
          (some 5) (withLog (fresh, []) []))
        = (if reachedSeq scripted 3 (fresh, []) then [seqOp (some 5)] else [])
    ∧ (∀ n, some 5 = some n →
        (sendPacket (traced scripted) 3 [1] (some 5)
            (withLog (fresh, []) [])).2.1.m_PacketNumber
            = (fresh, ([] : List Bool)).1.m_PacketNumber
        ∧ (sendPacketCallback (traced scripted) 3 (logged Op.bodyCallback scriptedStep)
              (some 5) (withLog (fresh, []) [])).2.1.m_PacketNumber
            = (fresh, ([] : List Bool)).1.m_PacketNumber) :=
  ⟨scripted_frames _ (fun _ _ => trivial),
    fun x _ => ⟨trivial, by rw [scriptedStep_fst]⟩,
    sendPacket_sequence_override (fun _ => True) scripted
      (scripted_frames _ (fun _ _ => trivial)) scriptedStep
      (fun x _ => ⟨trivial, by rw [scriptedStep_fst]⟩) 3 [1] (some 5) (fresh, []) trivial⟩

/-- One successful send outside a bundle, with `sendPacketNumber` as modelled:
the five calls, the sequence field carrying the override or else the counter,
and the counter moved on by one exactly when no override was given. -/
theorem sendPacket_fresh_step {ε : Type} (P : Prims (State ε))
    (hP : Frames outsideBundle P) (m : Send) (x : State ε) (log : Log)
    (hx : outsideBundle x)
    (hok : (sendPacket (withPacketNumber (traced P)) m.type m.packet m.packetNumberOverride
      (withLog x log)).1 = true) :
    outsideBundle ((sendPacket (withPacketNumber (traced P)) m.type m.packet
        m.packetNumberOverride (withLog x log)).2.1,
      (sendPacket (withPacketNumber (traced P)) m.type m.packet
        m.packetNumberOverride (withLog x log)).2.2.1)
    ∧ (sendPacket (withPacketNumber (traced P)) m.type m.packet m.packetNumberOverride
        (withLog x log)).2.1.m_PacketNumber
        = (if m.packetNumberOverride.isNone then nextPacketNumber x.1.m_PacketNumber
            else x.1.m_PacketNumber)
    ∧ (sendPacket (withPacketNumber (traced P)) m.type m.packet m.packetNumberOverride
        (withLog x log)).2.2.2.map Prod.fst
        = log.map Prod.fst ++
          [Op.beginPacket, Op.sendPacketType m.type,
            Op.sendLong (m.packetNumberOverride.getD x.1.m_PacketNumber),
            Op.sendBytes m.packet (sizeofPacket m.packet), Op.endPacket] := by
  obtain ⟨hb, ht, hl, hs, he⟩ := hP
  obtain ⟨type, packet, ov⟩ := m
  have h1 := hb x hx
  have h2 := ht type _ h1.1
  cases ov with
  | some n =>
    have h3 := hl n _ h2.1
    have h4 := hs packet (sizeofPacket packet) _ h3.1
    have h5 := he _ h4.1
    simp only [sendPacket, withPacketNumber, traced, logged, withLog] at hok ⊢
    split_ifs at hok ⊢ <;> simp_all [outsideBundle]
  | none =>
    have h3 := hl (P.sendPacketType type (P.beginPacket x).2).2.1.m_PacketNumber _ h2.1
    have hx4 : outsideBundle
        (({ (P.sendLong (P.sendPacketType type (P.beginPacket x).2).2.1.m_PacketNumber
              (P.sendPacketType type (P.beginPacket x).2).2).2.1 with
            m_PacketNumber := ((P.sendPacketType type (P.beginPacket x).2).2.1.m_PacketNumber
              + 1) % UINT64_MOD },
          (P.sendLong (P.sendPacketType type (P.beginPacket x).2).2.1.m_PacketNumber
              (P.sendPacketType type (P.beginPacket x).2).2).2.2) : State ε) := h3.1
    have h4 := hs packet (sizeofPacket packet) _ hx4
    have h5 := he _ h4.1
    have hbun : (P.sendPacketType type (P.beginPacket x).2).2.1.m_IsBundle = false := h2.1
    simp only [sendPacket, withPacketNumber, sendPacketNumber, traced, logged, withLog,
      hbun] at hok ⊢
    split_ifs at hok ⊢ <;> simp_all [outsideBundle, nextPacketNumber]

/-- A run of successful sends outside a bundle: the calls made and the counter
reached, by induction on the run. -/
theorem sendAll_fresh_run {ε : Type} (P : Prims (State ε)) (hP : Frames outsideBundle P)
    (sends : List Send) :
    ∀ (x : State ε) (log : Log), outsideBundle x →
      (sendAll (withPacketNumber (traced P)) sends (withLog x log)).1 = true →
      (sendAll (withPacketNumber (traced P)) sends (withLog x log)).2.1.m_PacketNumber
          = counterAfter nextPacketNumber x.1.m_PacketNumber sends
      ∧ (sendAll (withPacketNumber (traced P)) sends (withLog x log)).2.2.2.map Prod.fst
          = log.map Prod.fst ++ expectedCalls nextPacketNumber x.1.m_PacketNumber sends := by
  induction sends with
  | nil => intro x log _ _; simp [sendAll, withLog, counterAfter, expectedCalls]
  | cons m ms ih =>
    intro x log hx hok
    simp only [sendAll] at hok ⊢
    cases hr : (sendPacket (withPacketNumber (traced P)) m.type m.packet
        m.packetNumberOverride (withLog x log)).1 with
    | false => simp [hr] at hok
    | true =>
      simp only [hr, Bool.not_true, Bool.false_eq_true, if_false] at hok ⊢
      obtain ⟨hy, hc, hl⟩ := sendPacket_fresh_step P hP m x log hx hr
      have := ih _ _ hy hok
      simp only [withLog] at this hc hl ⊢
      rw [this.1, this.2, hc, hl]
      simp [counterAfter, expectedCalls, List.append_assoc]

/-- Without wrap-around the counter after a run is the start plus the number
of fresh draws. -/
theorem counterAfter_eq (sends : List Send) :
    ∀ c, c < UINT64_MOD →
      counterAfter nextPacketNumber c sends = (c + freshCount sends) % UINT64_MOD := by
  induction sends with
  | nil => intro c hc; simp [counterAfter, freshCount, Nat.mod_eq_of_lt hc]
  | cons m ms ih =>
    intro c hc
    have hM : 0 < UINT64_MOD := by unfold UINT64_MOD; positivity
    cases ho : m.packetNumberOverride with
    | some n => simpa [counterAfter, freshCount, ho] using ih c hc
    | none =>
      have := ih (nextPacketNumber c) (Nat.mod_lt _ hM)
      simp only [counterAfter, ho, Option.isNone_none, if_true, this]
      simp only [freshCount, nextPacketNumber, List.filter_cons, ho, Option.isNone_none,
        if_true, List.length_cons, Nat.mod_add_mod]
      congr 1
      omega

/-- Below the wrap-around the expected calls are those of the plain successor. -/
theorem expectedCalls_exact (sends : List Send) :
    ∀ c, c + freshCount sends < UINT64_MOD →
      expectedCalls nextPacketNumber c sends = expectedCalls (fun n => n + 1) c sends := by
  induction sends with
  | nil => intro c _; rfl
  | cons m ms ih =>
    intro c hc
    cases ho : m.packetNumberOverride with
    | some n =>
      have hc2 : c + freshCount ms < UINT64_MOD := by
        simpa [freshCount, ho] using hc
      simp [expectedCalls, ho, ih c hc2]
    | none =>
      have hc2 : c + 1 + freshCount ms < UINT64_MOD := by
        simp only [freshCount, List.filter_cons, ho, Option.isNone_none, if_true,
          List.length_cons] at hc
        simp only [freshCount]
        omega
      have hn : nextPacketNumber c = c + 1 := by
        unfold nextPacketNumber
        exact Nat.mod_eq_of_lt (by omega)
      simp [expectedCalls, ho, hn, ih (c + 1) hc2]

/-- C4. Sequence numbers of successful sends.  With `sendPacketNumber` as
modelled and helpers that leave the counter and the bundle flag alone, for
every run of successful sends made outside a bundle from a counter `c`: each
send without an override writes the counter and the next such send writes its
successor in `uint64_t` arithmetic, sends with an override write their override
and leave the counter; after the run the counter is `c` plus the number of
sends without override, modulo `2 ^ 64`.  As long as that sum stays below
`2 ^ 64` each fresh number is exactly one greater than the previous one and
the counter is exactly `c` plus the number of such sends. -/
theorem sendAll_sequence_numbers {ε : Type} (P : Prims (State ε))
    (hP : Frames outsideBundle P) (sends : List Send) (x : State ε)
    (hx : outsideBundle x) (hc : x.1.m_PacketNumber < UINT64_MOD)
    (hok : (sendAll (withPacketNumber (traced P)) sends (withLog x [])).1 = true) :
    (sendAll (withPacketNumber (traced P)) sends (withLog x [])).2.2.2.map Prod.fst
        = expectedCalls nextPacketNumber x.1.m_PacketNumber sends
    ∧ (sendAll (withPacketNumber (traced P)) sends (withLog x [])).2.1.m_PacketNumber
        = (x.1.m_PacketNumber + freshCount sends) % UINT64_MOD
    ∧ (x.1.m_PacketNumber + freshCount sends < UINT64_MOD →
        (sendAll (withPacketNumber (traced P)) sends (withLog x [])).2.2.2.map Prod.fst
            = expectedCalls (fun n => n + 1) x.1.m_PacketNumber sends
        ∧ (sendAll (withPacketNumber (traced P)) sends (withLog x [])).2.1.m_PacketNumber
            = x.1.m_PacketNumber + freshCount sends) := by
  obtain ⟨h1, h2⟩ := sendAll_fresh_run P hP sends x [] hx hok
  rw [counterAfter_eq sends _ hc] at h1
  simp only [List.map_nil, List.nil_append] at h2
  refine ⟨h2, h1, fun hlt => ⟨?_, ?_⟩⟩
  · rw [h2, expectedCalls_exact sends _ hlt]
  · rw [h1, Nat.mod_eq_of_lt hlt]

/-- Witness for C4: three sends over the transport that never fails, from the
fresh object (counter 0); the two sends without override write 0 and 1, the
counter ends at 2. -/
theorem sendAll_sequence_numbers_witness :
    Frames outsideBundle scripted ∧ outsideBundle (fresh, ([] : List Bool))
    ∧ (sendAll (withPacketNumber (traced scripted)) sampleSends
        (withLog (fresh, []) [])).1 = true
    ∧ (sendAll (withPacketNumber (traced scripted)) sampleSends
        (withLog (fresh, []) [])).2.2.2.map Prod.fst
        = [Op.beginPacket, Op.sendPacketType 4, Op.sendLong 0, Op.sendBytes [1] 1,
            Op.endPacket,
            Op.beginPacket, Op.sendPacketType 3, Op.sendLong 0, Op.sendBytes [2] 1,
            Op.endPacket,
            Op.beginPacket, Op.sendPacketType 4, Op.sendLong 1, Op.sendBytes [3] 1,
            Op.endPacket]
    ∧ (sendAll (withPacketNumber (traced scripted)) sampleSends
        (withLog (fresh, []) [])).2.1.m_PacketNumber = 2 :=
  have hF : Frames outsideBundle scripted :=
    scripted_frames _ (fun x hx => by
      show (scriptedStep x).2.1.m_IsBundle = false
      rw [scriptedStep_fst]; exact hx)
  have h := sendAll_sequence_numbers scripted hF sampleSends (fresh, []) rfl
    (by decide) rfl
  ⟨hF, rfl, rfl, (h.2.2 (by decide)).1, (h.2.2 (by decide)).2⟩

/-! ## Construction -/

/-- Conversion to `int` keeps a value that is representable. -/
theorem toInt_of_fits (v : Int) (hlo : INT_MIN ≤ v) (hhi : v ≤ INT_MAX) : toInt v = v := by
  unfold toInt INT_MOD
  unfold INT_MIN at hlo ⊢
  unfold INT_MAX at hhi
  rw [Int.emod_eq_of_lt (by omega) (by omega)]
  omega

/-- C6. Initial session state.  A constructed `Connection` is disconnected, has
sequence counter 0, no active bundle (cursor 0, inner count 0) and 0
feature-flag request attempts; its address is 255.255.255.255 when `SERVER_IP`
is not defined; its port is 6969 when `SERVER_PORT` is not defined, and when
`SERVER_PORT` is defined it is `SERVER_PORT` converted to the `int` member,
which is `SERVER_PORT` itself for every value an `int` can hold. -/
theorem construct_initial_state (cfg : BuildConfig) (amb : Ambient) :
    (Connection.construct cfg amb).isConnected = false
    ∧ (Connection.construct cfg amb).m_PacketNumber = 0
    ∧ (Connection.construct cfg amb).m_IsBundle = false
    ∧ (Connection.construct cfg amb).m_BundlePacketPosition = 0
    ∧ (Connection.construct cfg amb).m_BundlePacketInnerCount = 0
    ∧ (Connection.construct cfg amb).m_FeatureFlagsRequestAttempts = 0
    ∧ (cfg.SERVER_PORT = none → (Connection.construct cfg amb).m_ServerPort = 6969)
    ∧ (cfg.SERVER_IP = none →
        (Connection.construct cfg amb).m_ServerHost = ⟨255, 255, 255, 255⟩)
    ∧ (∀ port, cfg.SERVER_PORT = some port →
        (Connection.construct cfg amb).m_ServerPort = toInt port)
    ∧ (∀ port, cfg.SERVER_PORT = some port → INT_MIN ≤ port → port ≤ INT_MAX →
        (Connection.construct cfg amb).m_ServerPort = port) := by
  obtain ⟨ip, port, n, off⟩ := cfg
  cases ip <;> cases port <;>
    simp [Connection.construct, Connection.memberInit, Connection.isConnected] <;>
    exact fun hlo hhi => toInt_of_fits _ hlo hhi

/-- Witness for C6: the default build gives port 6969 and the broadcast
address, the build with `SERVER_PORT` 9000 gives port 9000, and the build with
`SERVER_PORT` 4294974265, which no `int` holds, gives port 6969. -/
theorem construct_initial_state_witness :
    (Connection.construct defaultBuild sampleAmbient).m_ServerPort = 6969
    ∧ (Connection.construct defaultBuild sampleAmbient).m_ServerHost
        = ⟨255, 255, 255, 255⟩
    ∧ (Connection.construct portBuild sampleAmbient).m_ServerPort = 9000
    ∧ (Connection.construct widePortBuild sampleAmbient).m_ServerPort = 6969 :=
  ⟨(construct_initial_state defaultBuild sampleAmbient).2.2.2.2.2.2.1 rfl,
    (construct_initial_state defaultBuild sampleAmbient).2.2.2.2.2.2.2.1 rfl,
    (construct_initial_state portBuild sampleAmbient).2.2.2.2.2.2.2.2.2 9000 rfl
      (by decide) (by decide),
    ((construct_initial_state widePortBuild sampleAmbient).2.2.2.2.2.2.2.2.1
      4294974265 rfl).trans (by decide)⟩

/-- Aggregate initialisation yields `n` elements; element `i` is the listed one
if there is one and the value-initialised one otherwise. -/
theorem aggregateInit_getElem? {α : Type} (n : Nat) (given : List α) (zero : α) (i : Nat)
    (hi : i < n) : (aggregateInit n given zero)[i]? = some (given.getD i zero) := by
  simp [aggregateInit, List.getElem?_map, List.getElem?_range hi]

/-- C10. Acknowledged records of a fresh object.  In a freshly constructed
`Connection`, for every slot `i` below `MAX_SENSORS_COUNT`: the acknowledged
status is `SENSOR_OFFLINE` in slot 0 and the value-initialised status (bit
pattern 0) in every other slot, so that, `SENSOR_OFFLINE` being the zero
enumerator, it is `SENSOR_OFFLINE` in every slot; the acknowledged
configuration bits are zero; the acknowledged calibration is `false`; and the
last-sensor-info timestamp is 0. -/
theorem construct_acked_records (cfg : BuildConfig) (amb : Ambient) (i : Nat)
    (hi : i < cfg.MAX_SENSORS_COUNT) :
    (Connection.construct cfg amb).m_AckedSensorState[i]?
        = some (if i = 0 then cfg.SENSOR_OFFLINE else 0)
    ∧ (cfg.SENSOR_OFFLINE = 0 →
        (Connection.construct cfg amb).m_AckedSensorState[i]? = some cfg.SENSOR_OFFLINE)
    ∧ (Connection.construct cfg amb).m_AckedSensorConfigData[i]? = some 0
    ∧ (Connection.construct cfg amb).m_AckedSensorCalibration[i]? = some false
    ∧ (Connection.construct cfg amb).m_LastSensorInfoPacketTimestamp = 0 := by
  have hs : (Connection.construct cfg amb).m_AckedSensorState
      = aggregateInit cfg.MAX_SENSORS_COUNT [cfg.SENSOR_OFFLINE] 0 := by
    unfold Connection.construct; split <;> split <;> rfl
  have hd : (Connection.construct cfg amb).m_AckedSensorConfigData
      = aggregateInit cfg.MAX_SENSORS_COUNT [] 0 := by
    unfold Connection.construct; split <;> split <;> rfl
  have hcal : (Connection.construct cfg amb).m_AckedSensorCalibration
      = aggregateInit cfg.MAX_SENSORS_COUNT [false] false := by
    unfold Connection.construct; split <;> split <;> rfl
  have ht : (Connection.construct cfg amb).m_LastSensorInfoPacketTimestamp = 0 := by
    unfold Connection.construct; split <;> split <;> rfl
  rw [hs, hd, hcal, ht, aggregateInit_getElem? _ _ _ i hi, aggregateInit_getElem? _ _ _ i hi,
    aggregateInit_getElem? _ _ _ i hi]
  cases i with
  | zero => simp
  | succ j => cases j <;> simp [List.getD] <;> intro h <;> exact h.symm

/-- Witness for C10: slot 3 of the four slots of the default build, whose
`SENSOR_OFFLINE` is the zero enumerator. -/
theorem construct_acked_records_witness :
    3 < defaultBuild.MAX_SENSORS_COUNT ∧ defaultBuild.SENSOR_OFFLINE = 0
    ∧ (Connection.construct defaultBuild sampleAmbient).m_AckedSensorState[3]?
        = some defaultBuild.SENSOR_OFFLINE
    ∧ (Connection.construct defaultBuild sampleAmbient).m_AckedSensorConfigData[3]? = some 0
    ∧ (Connection.construct defaultBuild sampleAmbient).m_AckedSensorCalibration[3]?
        = some false :=
  ⟨by decide, rfl,
    (construct_acked_records defaultBuild sampleAmbient 3 (by decide)).2.1 rfl,
    (construct_acked_records defaultBuild sampleAmbient 3 (by decide)).2.2.1,
    (construct_acked_records defaultBuild sampleAmbient 3 (by decide)).2.2.2.1⟩

/-! ## Bundles -/

/-- C7. `beginBundle` on an active bundle.  With `beginBundle` as modelled, for
every state in which a bundle is active, `beginBundle` returns `false` and
leaves the whole state as it was: the bundle is still active, its cursor and
its inner sub-packet count are unchanged. -/
theorem beginBundle_active {ε : Type} (x : State ε) (h : x.1.m_IsBundle = true) :
    (beginBundle x).1 = false
    ∧ (beginBundle x).2 = x
    ∧ (beginBundle x).2.1.m_IsBundle = true
    ∧ (beginBundle x).2.1.m_BundlePacketPosition = x.1.m_BundlePacketPosition
    ∧ (beginBundle x).2.1.m_BundlePacketInnerCount = x.1.m_BundlePacketInnerCount := by
  simp [beginBundle, h]

/-- Witness for C7: a second `beginBundle` right after a first one on the fresh
object. -/
theorem beginBundle_active_witness :
    (beginBundle (fresh, ())).1 = true
    ∧ (beginBundle (fresh, ())).2.1.m_IsBundle = true
    ∧ (beginBundle (beginBundle (fresh, ())).2).1 = false
    ∧ (beginBundle (beginBundle (fresh, ())).2).2 = (beginBundle (fresh, ())).2 :=
  ⟨rfl, rfl,
    (beginBundle_active (beginBundle (fresh, ())).2 rfl).1,
    (beginBundle_active (beginBundle (fresh, ())).2 rfl).2.1⟩

/-- C8. `endBundle` without a bundle.  With `endBundle` as modelled, for every
state in which no bundle is active, whatever the back-patch and the helpers
are, `endBundle` returns `false` and leaves the object and the environment
(the transport and everything it has sent) as they were; with instrumented
helpers the call log is unchanged, so no helper is called. -/
theorem endBundle_inactive {ε : Type} (patchInnerCount : Nat → State ε → Bool × State ε)
    (patchLogged : Nat → State (ε × Log) → Bool × State (ε × Log))
    (P : Prims (State ε)) (x : State ε) (log : Log) (h : x.1.m_IsBundle = false) :
    endBundle patchInnerCount P x = (false, x)
    ∧ endBundle patchLogged (traced P) (withLog x log) = (false, withLog x log) := by
  simp [endBundle, withLog, h]

/-- Witness for C8: `endBundle` on the fresh object over the scripted
transport, whose script is left untouched. -/
theorem endBundle_inactive_witness :
    fresh.m_IsBundle = false
    ∧ endBundle (fun _ => scriptedStep) scripted (fresh, [false, true])
      = (false, (fresh, [false, true])) :=
  ⟨rfl,
    (endBundle_inactive (fun _ => scriptedStep) (fun _ y => (true, y)) scripted
      (fresh, [false, true]) [] rfl).1⟩

end SlimeVR.Network
